import Mathlib

/-
Formal model of the FortniteReleaseTracker-DiscordBot repository
(`fortnite_update_notifier.py`, `fortnite_scraper.py`, `size_parser.py`).

Conventions of the shallow embedding:
 - Python strings are Lean `String`s; operations that Python performs on
   code points (slicing, lower-casing, regex scanning) are modelled over
   `String.data : List Char`.
 - Python `Optional[str]` values are `Option String`; Python truthiness of
   such a value (`None` and `""` are falsy) is the function `truthyS`.
 - Python floats are modelled as rationals `ℚ`; every comparison made by
   the clustering code on the inputs of interest is far from a rounding
   boundary, so the rational model agrees with the float computation.
 - Network, clock and file-system effects are passed in explicitly: the
   probe results are fields of `RunEnv`, the wall-clock rendering
   `to_pacific_display` is the function field `timeDisp`, and the state
   file is a `StateDict` value passed in and an `Option StateDict`
   returned (`none` = the run did not write the file).
-/

/- ------------------------------------------------------------------
   Character-level helpers shared by the regex models
   ------------------------------------------------------------------ -/

def charAt (s : List Char) (i : Nat) : Option Char := s.get? i

/-- Python regex word character (`\w`) for the ASCII inputs handled here. -/
def isWordChar (ch : Char) : Bool := ch.isAlphanum || ch == '_'

def isWordAt (s : List Char) (i : Nat) : Bool :=
  match charAt s i with
  | some ch => isWordChar ch
  | none => false

/-- Python regex word boundary `\b` at position `i` of `s`. -/
def boundary (s : List Char) (i : Nat) : Bool :=
  (if i == 0 then false else isWordAt s (i - 1)) != isWordAt s i

def digitAt (s : List Char) (i : Nat) : Bool :=
  match charAt s i with
  | some ch => ch.isDigit
  | none => false

def charIs (s : List Char) (i : Nat) (want : Char) : Bool :=
  match charAt s i with
  | some ch => ch == want
  | none => false

def wsAt (s : List Char) (i : Nat) : Bool :=
  match charAt s i with
  | some ch => ch.isWhitespace
  | none => false

def sub (s : List Char) (i j : Nat) : List Char := (s.drop i).take (j - i)

/- ------------------------------------------------------------------
   fortnite_scraper._extract_version
   regex: \bv?\s?(\d{2}\.\d{1,2}|\d{2}\-\d{1,2})\b  (IGNORECASE)
   ------------------------------------------------------------------ -/

/-- One alternation branch of the capture group: two digits, the separator
`sep`, then one or two digits (greedy), followed by `\b`. -/
def matchVersionBranch (s : List Char) (i : Nat) (sep : Char) : Option (List Char) :=
  if digitAt s i && digitAt s (i+1) && charIs s (i+2) sep then
    if digitAt s (i+3) && digitAt s (i+4) && boundary s (i+5) then
      some (sub s i (i+5))
    else if digitAt s (i+3) && boundary s (i+4) then
      some (sub s i (i+4))
    else none
  else none

def matchVersionGroup (s : List Char) (i : Nat) : Option (List Char) :=
  (matchVersionBranch s i '.').orElse (fun _ => matchVersionBranch s i '-')

/-- The optional `\s?` before the capture group (greedy: consume first). -/
def matchVersionCore (s : List Char) (i : Nat) : Option (List Char) :=
  (if wsAt s i then matchVersionGroup s (i+1) else none).orElse
    (fun _ => matchVersionGroup s i)

def vAt (s : List Char) (i : Nat) : Bool :=
  match charAt s i with
  | some ch => ch == 'v' || ch == 'V'
  | none => false

/-- Attempt the whole pattern anchored at position `i`: `\b`, optional `v`
(case-insensitive, greedy), optional whitespace, then the version group. -/
def matchVersionAt (s : List Char) (i : Nat) : Option (List Char) :=
  if boundary s i then
    (if vAt s i then matchVersionCore s (i+1) else none).orElse
      (fun _ => matchVersionCore s i)
  else none

def searchVersionFrom (s : List Char) (i : Nat) : Nat → Option (List Char)
  | 0 => none
  | fuel + 1 => (matchVersionAt s i).orElse (fun _ => searchVersionFrom s (i+1) fuel)

/-- `re.search` of `_VERSION_RX`: leftmost match wins; the returned chars
are the content of capture group 1. -/
def rxSearchVersion (s : List Char) : Option (List Char) :=
  searchVersionFrom s 0 (s.length + 1)

/-- Embedding of `fortnite_scraper._extract_version`: search for the
version pattern, replace `-` with `.` in the matched group, and prepend
`v` when the token does not already start with it. -/
def extract_version (text : String) : Option String :=
  match rxSearchVersion text.data with
  | none => none
  | some tok =>
    let tok2 := tok.map (fun ch => if ch == '-' then '.' else ch)
    let hasV := match tok2 with
      | ch :: _ => ch.toLower == 'v'
      | [] => false
    if hasV then some (String.mk tok2) else some (String.mk ('v' :: tok2))

/- ------------------------------------------------------------------
   fortnite_scraper.parse_uefn_whats_new: version formatting from a
   release header, regex: release\s+(\d{1,2})[.\-](\d{1,2}) (optional
   date group omitted: it feeds only `published`, never the version),
   then  f"v{int(major):02d}.{int(minor):02d}".
   ------------------------------------------------------------------ -/

def matchCharsCI (s : List Char) (i : Nat) : List Char → Bool
  | [] => true
  | ch :: rest =>
    (match charAt s i with
     | some c2 => c2.toLower == ch
     | none => false) && matchCharsCI s (i+1) rest

def skipWS (s : List Char) : Nat → Nat → Nat
  | i, 0 => i
  | i, fuel + 1 => if wsAt s i then skipWS s (i+1) fuel else i

def digitVal (s : List Char) (i : Nat) : Nat :=
  match charAt s i with
  | some ch => ch.toNat - '0'.toNat
  | none => 0

def uefnSepAt (s : List Char) (i : Nat) : Bool := charIs s i '.' || charIs s i '-'

/-- The minor group `(\d{1,2})`, greedy. -/
def uefnMinor (s : List Char) (i : Nat) : Option Nat :=
  if digitAt s i && digitAt s (i+1) then some (10 * digitVal s i + digitVal s (i+1))
  else if digitAt s i then some (digitVal s i)
  else none

/-- The major group `(\d{1,2})` (greedy, backtracking to one digit when
the separator does not follow), the separator, then the minor group. -/
def uefnMajorMinor (s : List Char) (i : Nat) : Option (Nat × Nat) :=
  if digitAt s i && digitAt s (i+1) && uefnSepAt s (i+2) then
    match uefnMinor s (i+3) with
    | some mnr => some (10 * digitVal s i + digitVal s (i+1), mnr)
    | none => none
  else if digitAt s i && uefnSepAt s (i+1) then
    match uefnMinor s (i+2) with
    | some mnr => some (digitVal s i, mnr)
    | none => none
  else none

def uefnMatchAt (s : List Char) (i : Nat) : Option (Nat × Nat) :=
  if matchCharsCI s i ['r','e','l','e','a','s','e'] && wsAt s (i+7) then
    uefnMajorMinor s (skipWS s (i+7) s.length)
  else none

def uefnSearchFrom (s : List Char) (i : Nat) : Nat → Option (Nat × Nat)
  | 0 => none
  | fuel + 1 => (uefnMatchAt s i).orElse (fun _ => uefnSearchFrom s (i+1) fuel)

/-- Python `f"{n:02d}"` for a natural number. -/
def pad2 (n : Nat) : String := if n < 10 then "0" ++ toString n else toString n

/-- Version string produced by `parse_uefn_whats_new` for a candidate
release header text: `f"v{int(major):02d}.{int(minor):02d}"`. -/
def uefn_header_version (t : String) : Option String :=
  match uefnSearchFrom t.data 0 (t.data.length + 1) with
  | some (mjr, mnr) => some ("v" ++ pad2 mjr ++ "." ++ pad2 mnr)
  | none => none

/- ------------------------------------------------------------------
   Theorems for claims C7 and C10
   ------------------------------------------------------------------ -/

/-- C7 counterexample: the claim says the extractor matches two 1–2-digit
groups, under which `"5.2"` would normalize to `v5.2`; the code's regex
requires exactly two digits before the separator, so `"5.2"` yields no
version at all. -/
theorem C7_counterexample :
    extract_version "5.2" = none ∧ extract_version "5.2" ≠ some "v5.2" := by
  decide

/-- C7 (amended): version extraction matches a two-digit major group and a
1–2-digit minor group separated by `.` or `-`, normalizes the separator to
`.` and prefixes `v` when absent; `"37.20"`, `"v37.20"`, `"37-20"` all
normalize to `v37.20`, while a one-digit major such as `"5.2"` does not
match. -/
theorem C7_amended_versions :
    extract_version "37.20" = some "v37.20"
    ∧ extract_version "v37.20" = some "v37.20"
    ∧ extract_version "37-20" = some "v37.20"
    ∧ extract_version "37-2" = some "v37.2"
    ∧ extract_version "5.2" = none := by
  decide

/-- C10: the UEFN what's-new parser zero-pads both components
(`v%02d.%02d`), so the header `Release 37.2 (Sep 06, 2025)` yields
`v37.02`, while the generic extractor on the same text yields `v37.2` —
two different strings for the same real-world version. -/
theorem C10_uefn_zero_padding :
    uefn_header_version "Release 37.2 (Sep 06, 2025)" = some "v37.02"
    ∧ extract_version "Release 37.2 (Sep 06, 2025)" = some "v37.2"
    ∧ ("v37.02" : String) ≠ "v37.2" := by
  decide

/- ------------------------------------------------------------------
   size_parser._cluster_values  (floats modelled as ℚ)
   ------------------------------------------------------------------ -/

/-- Python built-in `abs` on the rational model of floats. -/
def rabs (q : ℚ) : ℚ := if q < 0 then -q else q

def insertAsc (x : ℚ) : List ℚ → List ℚ
  | [] => [x]
  | y :: t => if x ≤ y then x :: y :: t else y :: insertAsc x t

/-- Python `sorted` (ascending) on a list of numbers. -/
def sortAsc (l : List ℚ) : List ℚ := l.foldr insertAsc []

/-- The inner `while j < n` loop of `_cluster_values`: extend the cluster
while the next sorted value is within `max(abs_tol, median * rel_tol)` of
the cluster's running median `cluster[len(cluster) // 2]`; return the
finished cluster and the values not consumed. -/
def growCluster (relTol absTol : ℚ) : List ℚ → List ℚ → List ℚ × List ℚ
  | cluster, [] => (cluster, [])
  | cluster, v :: rest =>
    let median := cluster.getD (cluster.length / 2) 0
    if rabs (v - median) ≤ max absTol (median * relTol) then
      growCluster relTol absTol (cluster ++ [v]) rest
    else (cluster, v :: rest)

theorem growCluster_rest_length (relTol absTol : ℚ) :
    ∀ (r c : List ℚ), (growCluster relTol absTol c r).2.length ≤ r.length := by
  intro r
  induction r with
  | nil => intro c; simp [growCluster]
  | cons v rest ih =>
    intro c
    simp only [growCluster]
    split
    · exact Nat.le_trans (ih _) (Nat.le_succ _)
    · exact Nat.le_refl _

/-- The outer `while i < n` loop of `_cluster_values`: start a cluster at
the smallest remaining value, grow it, keep the largest cluster seen.
Each iteration consumes at least one value, so running it with
`fuel = length of the list` is exact (see `growCluster_rest_length`). -/
def bestClusterAux (relTol absTol : ℚ) : Nat → List ℚ → List ℚ → List ℚ
  | _, [], best => best
  | 0, _ :: _, best => best
  | fuel + 1, v :: rest, best =>
    let pr := growCluster relTol absTol [v] rest
    bestClusterAux relTol absTol fuel pr.2 (if best.length < pr.1.length then pr.1 else best)

/-- Embedding of `size_parser._cluster_values` (the two tolerance
parameters are passed explicitly; the call sites use `rel_tol = 0.12`,
`abs_tol = 0.25`): returns `(median_of_best_cluster, votes)`, `(0, 0)`
when there are no values. -/
def cluster_values (values : List ℚ) (relTol absTol : ℚ) : ℚ × Nat :=
  match values with
  | [] => (0, 0)
  | _ :: _ =>
    let vals := sortAsc values
    let best := bestClusterAux relTol absTol vals.length vals []
    let k := best.length
    if k = 0 then (0, 0)
    else
      let mid := k / 2
      if k % 2 = 1 then (best.getD mid 0, k)
      else ((best.getD (mid - 1) 0 + best.getD mid 0) / 2, k)

/-- C6: on the observations `[5.0, 5.1, 5.05, 9.0]` with the default
tolerances (relative 12%, absolute 0.25 GB) the greedy clustering keeps
the 3-member cluster `[5.0, 5.05, 5.1]`, reports its median `5.05` with
3 votes (clearing the min-votes threshold 2), and leaves `9.0` outside
the winning cluster. -/
theorem C6_cluster_consensus :
    cluster_values [5, 51/10, 101/20, 9] (12/100) (25/100) = (101/20, 3)
    ∧ bestClusterAux (12/100) (25/100) 4 (sortAsc [5, 51/10, 101/20, 9]) []
        = [5, 101/20, 51/10]
    ∧ 2 ≤ (cluster_values [5, 51/10, 101/20, 9] (12/100) (25/100)).2
    ∧ (9 : ℚ) ∉ bestClusterAux (12/100) (25/100) 4 (sortAsc [5, 51/10, 101/20, 9]) [] := by
  refine ⟨?_, ?_, ?_, ?_⟩ <;>
    norm_num [cluster_values, bestClusterAux, growCluster, sortAsc, insertAsc, rabs, max_def]

/- ------------------------------------------------------------------
   fortnite_scraper.select_top_sections
   ------------------------------------------------------------------ -/

/-- A `{header, items}` section dict of the scraper. -/
structure PatchSection where
  header : String
  items : List String
deriving DecidableEq, Repr

/-- The unified parse result `{"version", "published", "sections"}`. -/
structure Article where
  version : Option String
  published : Option String
  sections : List PatchSection
deriving DecidableEq, Repr

/-- Collapse every whitespace run to one space (`re.sub(r"\s+", " ", s)`). -/
def squeezeWS : List Char → Bool → List Char
  | [], _ => []
  | ch :: t, prevWS =>
    if ch.isWhitespace then
      if prevWS then squeezeWS t true else ' ' :: squeezeWS t true
    else ch :: squeezeWS t false

def stripEnds (l : List Char) : List Char :=
  ((l.dropWhile Char.isWhitespace).reverse.dropWhile Char.isWhitespace).reverse

/-- Embedding of `fortnite_scraper._norm`. -/
def normText (s : String) : String := String.mk (stripEnds (squeezeWS s.data false))

/-- Python `str.lower()` for the ASCII texts handled here. -/
def lowerStr (s : String) : String := String.mk (s.data.map Char.toLower)

def startsList : List Char → List Char → Bool
  | [], _ => true
  | _ :: _, [] => false
  | a :: as, b :: bs => a == b && startsList as bs

/-- Python substring containment `needle in hay`. -/
def hasSub (needle : List Char) : List Char → Bool
  | [] => startsList needle []
  | c2 :: t => startsList needle (c2 :: t) || hasSub needle t

/-- The fixed `priority` keyword tuple of `select_top_sections`. -/
def priorityKeys : List String :=
  ["New", "Weapon", "Gadget", "Map", "Gameplay", "Vehicles",
   "Improvements", "Fixes", "Creative", "UEFN", "Performance", "Bug"]

/-- `score = sum(k.lower() in hdr for k in priority)` with
`hdr = (sec.get("header") or "").lower()`. -/
def sectionScore (sec : PatchSection) : Nat :=
  priorityKeys.countP (fun k => hasSub (lowerStr k).data (lowerStr sec.header).data)

/-- Stable insertion of a scored section into a descending-sorted list:
the element goes after every earlier element of greater-or-equal score,
exactly the order Python's stable `list.sort(..., reverse=True)`
produces. -/
def insertScoredDesc (x : Nat × PatchSection) :
    List (Nat × PatchSection) → List (Nat × PatchSection)
  | [] => [x]
  | y :: t => if y.1 ≤ x.1 then x :: y :: t else y :: insertScoredDesc x t

/-- `scored.sort(key=lambda x: x[0], reverse=True)` — a stable descending
sort by score. -/
def sortScoredDesc (l : List (Nat × PatchSection)) : List (Nat × PatchSection) :=
  l.foldr insertScoredDesc []

def filterScore (k : Nat) (l : List (Nat × PatchSection)) : List (Nat × PatchSection) :=
  l.filter (fun p => p.1 == k)

/-- Embedding of `fortnite_scraper.select_top_sections`. -/
def select_top_sections (article : Option Article) (maxSections maxItemsPer : Nat) :
    List String :=
  let sections := match article with
    | some a => a.sections
    | none => []
  if sections.isEmpty then []
  else
    let scored := sections.map (fun sec => (sectionScore sec, sec))
    let sorted := sortScoredDesc scored
    (sorted.take maxSections).foldl (fun lines p =>
      let header := if p.2.header == "" then "Highlights" else p.2.header
      (lines ++ ["**" ++ normText header ++ "**"]) ++
        (p.2.items.take maxItemsPer).map (fun it => "• " ++ normText it)) []

theorem mem_insertScoredDesc (x z : Nat × PatchSection) :
    ∀ l, z ∈ insertScoredDesc x l ↔ z = x ∨ z ∈ l := by
  intro l
  induction l with
  | nil => simp [insertScoredDesc]
  | cons y t ih =>
    simp only [insertScoredDesc]
    split
    · simp [List.mem_cons]
    · simp only [List.mem_cons, ih]
      tauto

theorem pairwise_insertScoredDesc (x : Nat × PatchSection) :
    ∀ l, l.Pairwise (fun a b => b.1 ≤ a.1) →
      (insertScoredDesc x l).Pairwise (fun a b => b.1 ≤ a.1) := by
  intro l
  induction l with
  | nil => intro _; simp [insertScoredDesc]
  | cons y t ih =>
    intro h
    rw [List.pairwise_cons] at h
    obtain ⟨hy, ht⟩ := h
    simp only [insertScoredDesc]
    split
    · rename_i hle
      refine List.Pairwise.cons ?_ (List.Pairwise.cons hy ht)
      intro z hz
      rcases List.mem_cons.mp hz with hz | hz
      · exact hz ▸ hle
      · exact Nat.le_trans (hy z hz) hle
    · rename_i hgt
      refine List.Pairwise.cons ?_ (ih ht)
      intro z hz
      rcases (mem_insertScoredDesc x z t).mp hz with hz | hz
      · exact hz ▸ Nat.le_of_lt (Nat.lt_of_not_le hgt)
      · exact hy z hz

/-- The output of the sort is descending in the score component. -/
theorem pairwise_sortScoredDesc (l : List (Nat × PatchSection)) :
    (sortScoredDesc l).Pairwise (fun a b => b.1 ≤ a.1) := by
  unfold sortScoredDesc
  induction l with
  | nil => simp
  | cons x t ih => exact pairwise_insertScoredDesc x _ ih

theorem filterScore_cons (k : Nat) (y : Nat × PatchSection) (l : List (Nat × PatchSection)) :
    filterScore k (y :: l) = if y.1 = k then y :: filterScore k l else filterScore k l := by
  by_cases hy : y.1 = k <;> simp [filterScore, List.filter_cons, hy]

theorem filterScore_insertScoredDesc (k : Nat) (x : Nat × PatchSection) :
    ∀ l, filterScore k (insertScoredDesc x l)
      = if x.1 = k then x :: filterScore k l else filterScore k l := by
  intro l
  induction l with
  | nil => exact filterScore_cons k x []
  | cons y t ih =>
    simp only [insertScoredDesc]
    split
    · exact filterScore_cons k x (y :: t)
    · rename_i hgt
      rw [filterScore_cons, ih]
      by_cases hy : y.1 = k
      · by_cases hx : x.1 = k
        · exact absurd (Nat.le_of_eq (hy.trans hx.symm)) hgt
        · simp [hy, hx, filterScore_cons]
      · by_cases hx : x.1 = k <;> simp [hy, hx, filterScore_cons]

/-- Stability of the sort: for every score value, the sub-sequence of
elements carrying that score is unchanged. -/
theorem filterScore_sortScoredDesc (k : Nat) :
    ∀ l, filterScore k (sortScoredDesc l) = filterScore k l := by
  intro l
  induction l with
  | nil => rfl
  | cons x t ih =>
    show filterScore k (insertScoredDesc x (sortScoredDesc t)) = _
    rw [filterScore_insertScoredDesc, ih, filterScore_cons]

/-- C8: highlight selection scores each header by the number of priority
keywords it contains (case-insensitive substring) and sorts descending
with a stable sort: the score-descending order is `Pairwise`, every score
class keeps its original sequence, and on the concrete sections
`Bug Fixes` / `New Weapons` (which score equally, 2 apiece) the first
listed section's lines come first. -/
theorem C8_stable_highlight_selection :
    (∀ (secs : List PatchSection) (k : Nat),
      ((sortScoredDesc (secs.map (fun sec => (sectionScore sec, sec)))).Pairwise
          (fun a b => b.1 ≤ a.1))
      ∧ filterScore k (sortScoredDesc (secs.map (fun sec => (sectionScore sec, sec))))
          = filterScore k (secs.map (fun sec => (sectionScore sec, sec))))
    ∧ sectionScore (PatchSection.mk "Bug Fixes" ["Fixed a crash"])
        = sectionScore (PatchSection.mk "New Weapons" ["Added a rifle"])
    ∧ select_top_sections
        (some (Article.mk none none
          [PatchSection.mk "Bug Fixes" ["Fixed a crash"],
           PatchSection.mk "New Weapons" ["Added a rifle"]])) 3 3
      = ["**Bug Fixes**", "• Fixed a crash",
         "**New Weapons**", "• Added a rifle"] := by
  refine ⟨fun secs k => ⟨pairwise_sortScoredDesc _, filterScore_sortScoredDesc k _⟩, ?_, ?_⟩
  · decide
  · decide

/- ------------------------------------------------------------------
   fortnite_update_notifier: state file and announcement payloads
   ------------------------------------------------------------------ -/

/-- The persisted state dict `{"last_version": str | null}`. -/
structure StateDict where
  last_version : Option String
deriving DecidableEq, Repr

/-- Conditions the state file can be in when `load_state` runs. -/
inductive FileCond where
  | absent
  | unreadable
  | notJson
  | valid (s : StateDict)
deriving DecidableEq, Repr

/-- The body of the `try` block of `load_state`: `os.path.exists` guard,
then `open` + `json.load`, either of which can raise. -/
def readStateFile : FileCond → Except String (Option StateDict)
  | .absent => .ok none
  | .unreadable => .error "OSError"
  | .notJson => .error "JSONDecodeError"
  | .valid s => .ok (some s)

/-- Embedding of `load_state`: every exception from the read is swallowed
and the default `{"last_version": None}` is returned, so the function is
total (never raises). -/
def load_state (c : FileCond) : StateDict :=
  match readStateFile c with
  | .ok (some s) => s
  | .ok none => StateDict.mk none
  | .error _ => StateDict.mk none

/-- Python truthiness of an `Optional[str]`: `None` and `""` are falsy. -/
def truthyS : Option String → Bool
  | none => false
  | some s => !(s == "")

/-- Python `a or b` on two `Optional[str]` values. -/
def pyOrS (a b : Option String) : Option String := if truthyS a then a else b

/-- Python f-string rendering of an `Optional[str]` (`None` prints as
`"None"`). -/
def pyStr : Option String → String
  | none => "None"
  | some s => s

/-- Python character slicing `s[:k]`. -/
def strTake (s : String) (k : Nat) : String := String.mk (s.data.take k)

structure EmbedField where
  name : String
  value : String
  inlineFlag : Bool
deriving DecidableEq, Repr

structure DiscordEmbed where
  title : String
  description : String
  color : Nat
  fields : List EmbedField
deriving DecidableEq, Repr

structure Payload where
  username : String
  embeds : List DiscordEmbed
deriving DecidableEq, Repr

/-- A webhook POST body: the top-level `content` string merged with the
embed payload. -/
structure Wire where
  content : String
  payload : Payload
deriving DecidableEq, Repr

/-- Embedding of `build_embed`.  `version` is the raw Python value passed
at the call sites (`None` on the forced no-version path), rendered by the
f-string into the title. -/
def build_embed (version : Option String) (timePt : String) (lines : List String)
    (links : List String) (sizeField : Option String) (forced : Bool) : Payload :=
  let desc0 := strTake (String.intercalate "\n" (lines.take 12)) 1500
  let desc := if desc0 == "" then "See full notes below." else desc0
  let fields0 := [EmbedField.mk "Time" timePt true]
  let fields1 := fields0 ++
    (if truthyS sizeField then
      [EmbedField.mk "Approx. Size" (pyStr sizeField ++ " *(crowdsourced)*") true]
     else [])
  let fields2 := fields1 ++
    (if links.isEmpty then []
     else [EmbedField.mk "Links" (String.intercalate " · " links) false])
  let title := "🔔 Fortnite Update " ++ pyStr version ++ (if forced then " (forced)" else "")
  Payload.mk "Fortnite Updates" [DiscordEmbed.mk title desc 0x5865F2 fields2]

/-- Title of the first embed of a webhook body. -/
def wireTitle (w : Wire) : String :=
  match w.payload.embeds with
  | emb :: _ => emb.title
  | [] => ""

/- ------------------------------------------------------------------
   fortnite_update_notifier.main: one run of the reconciler
   ------------------------------------------------------------------ -/

/-- Everything the run observes from the outside world: the four probe
results (parsed article and url per source), the status-probe result
(assumed stable across the two calls in one run), the crowd-size field,
the wall-clock time renderer `to_pacific_display`, the force flag, and
whether the webhook POST succeeds. -/
structure RunEnv where
  news : Option Article
  newsUrl : Option String
  devs : Option Article
  devUrl : Option String
  uefn : Option Article
  uefnUrl : Option String
  api : Option Article
  apiUrl : Option String
  maint : Option String
  sizes : Option String
  timeDisp : Option String → String
  forced : Bool
  webhookOk : Bool

/-- `news.get("version") if news else None`. -/
def srcVersion : Option Article → Option String
  | some a => a.version
  | none => none

def srcPublished : Option Article → Option String
  | some a => a.published
  | none => none

/-- The `or`-chain resolving the canonical version in priority order. -/
def resolveVersion (e : RunEnv) : Option String :=
  pyOrS (srcVersion e.news)
    (pyOrS (srcVersion e.devs) (pyOrS (srcVersion e.uefn) (srcVersion e.api)))

def resolvePublished (e : RunEnv) : Option String :=
  pyOrS (srcPublished e.news)
    (pyOrS (srcPublished e.devs) (pyOrS (srcPublished e.uefn) (srcPublished e.api)))

/-- `article = news or devs or uefn or api` (each parsed dict is a
non-empty dict, hence truthy). -/
def firstArticle (e : RunEnv) : Option Article :=
  match e.news with
  | some a => some a
  | none => match e.devs with
    | some a => some a
    | none => match e.uefn with
      | some a => some a
      | none => e.api

def statusPageLink : String := "[Epic Status](https://status.epicgames.com/)"

def mkLink (label url : String) : String := "[" ++ label ++ "](" ++ url ++ ")"

def runLinks (e : RunEnv) : List String :=
  (if truthyS e.newsUrl then [mkLink "Full notes (News)" (pyStr e.newsUrl)] else [])
  ++ (if truthyS e.devUrl then [mkLink "Dev release notes" (pyStr e.devUrl)] else [])
  ++ (if truthyS e.uefnUrl then [mkLink "UEFN What\u0027s New" (pyStr e.uefnUrl)] else [])
  ++ (if truthyS e.apiUrl then [mkLink "fortniteapi.io" (pyStr e.apiUrl)] else [])
  ++ [statusPageLink]

/-- Result of one run: the webhook bodies POSTed (in order, attempted
even when the transport then fails), the state written to the state file
(`none` = `save_state` never ran, file unchanged), and whether an
exception propagated out of `main`. -/
structure RunOut where
  posts : List Wire
  saved : Option StateDict
  raised : Bool
deriving DecidableEq, Repr

/-- Embedding of the decision logic of `main` after `load_state`
(lines 287-364 of `fortnite_update_notifier.py`): the unknown path
(no version, not forced) posts a diagnostic and persists the sentinel
`"(unknown)"`; the dedup gate suppresses when the resolved version equals
`last_version` and the run is not forced; otherwise the announcement is
posted and, only when the run is not forced and a version is truthy, the
state is saved.  A webhook failure raises before any save. -/
def runMain (e : RunEnv) (state : StateDict) : RunOut :=
  let last_version := state.last_version
  let version := resolveVersion e
  let published := resolvePublished e
  let timePt := e.timeDisp (pyOrS e.maint published)
  let article := firstArticle e
  let lines := match article with
    | some a => select_top_sections (some a) 3 3
    | none => ["*(no details available)*"]
  let sizeField := e.sizes
  let links := runLinks e
  if !truthyS version && !e.forced then
    let reason := if truthyS e.maint then
        "Downtime detected via Epic Status — patch notes not yet available."
      else
        "State mismatch detected — couldn’t scrape a version from Epic sources."
    let timePt2 := if truthyS e.maint then e.timeDisp e.maint else e.timeDisp none
    let payload := build_embed (some "(unknown)") timePt2 ["*(" ++ reason ++ ")*"]
      [statusPageLink] e.sizes e.forced
    let wire := Wire.mk "Fortnite update notifier — unknown version" payload
    if e.webhookOk then
      RunOut.mk [wire] (some (StateDict.mk (some "(unknown)"))) false
    else
      RunOut.mk [wire] none true
  else if !e.forced && (last_version == version) then
    RunOut.mk [] none false
  else
    let payload := build_embed version timePt lines links sizeField e.forced
    let wire := Wire.mk "Fortnite update notifier" payload
    if e.webhookOk then
      if !e.forced && truthyS version then
        RunOut.mk [wire] (some (StateDict.mk version)) false
      else
        RunOut.mk [wire] none false
    else
      RunOut.mk [wire] none true

/-- A fixed clock renderer for concrete runs. -/
def constTime : Option String → String := fun _ => "2025-09-06 05:00 PM PDT"

/-- An environment in which every source probe produced nothing. -/
def noSourceEnv (forced ok : Bool) : RunEnv :=
  RunEnv.mk none none none none none none none none none none constTime forced ok

/-- An environment whose news probe resolved version `v` (other sources
empty). -/
def versionEnv (v : String) : RunEnv :=
  RunEnv.mk (some (Article.mk (some v) none [])) none none none none none none none
    none none constTime false true

/- ------------------------------------------------------------------
   Shared lemmas about one run
   ------------------------------------------------------------------ -/

theorem truthyS_some_of_ne {v : String} (hne : v ≠ "") : truthyS (some v) = true := by
  simp [truthyS, hne]

/-- On the unknown path (no truthy version, not forced) the run always
POSTs exactly the diagnostic `(unknown)` announcement. -/
theorem runMain_unknown_posts (e : RunEnv) (st : StateDict)
    (hv : truthyS (resolveVersion e) = false) (hf : e.forced = false) :
    (runMain e st).posts.map wireTitle = ["🔔 Fortnite Update (unknown)"] := by
  cases hok : e.webhookOk <;>
    simp [runMain, hv, hf, hok, wireTitle, build_embed, pyStr]

/-- On the unknown path the run persists the sentinel exactly when the
webhook POST succeeds. -/
theorem runMain_unknown_saved (e : RunEnv) (st : StateDict)
    (hv : truthyS (resolveVersion e) = false) (hf : e.forced = false) :
    (runMain e st).saved
      = if e.webhookOk then some (StateDict.mk (some "(unknown)")) else none := by
  cases hok : e.webhookOk <;> simp [runMain, hv, hf, hok]

/- ------------------------------------------------------------------
   Theorems for claims C1 - C5 and C9
   ------------------------------------------------------------------ -/

/-- C1 counterexample: with every source empty, not forced, and no
maintenance signal, the run still POSTs a webhook and still writes the
state file — the claim's conclusion (no delivery and unchanged state)
fails at this concrete input. -/
theorem C1_counterexample :
    ¬ ((runMain (noSourceEnv false true) (StateDict.mk none)).posts = []
       ∧ (runMain (noSourceEnv false true) (StateDict.mk none)).saved = none) := by
  decide

/-- C1 (amended): for every run in which no source record yields a
version, the force flag is not set and the maintenance/status probe
returns no maintenance window signal, the run still delivers exactly one
diagnostic `(unknown)` announcement; when the delivery succeeds it
persists `last_version = "(unknown)"`, and when the transport fails the
exception propagates with the state unchanged. -/
theorem C1_amended_unknown_run (e : RunEnv) (st : StateDict)
    (hv : resolveVersion e = none) (hf : e.forced = false) (_hm : e.maint = none) :
    (runMain e st).posts.map wireTitle = ["🔔 Fortnite Update (unknown)"]
    ∧ (e.webhookOk = true →
        (runMain e st).saved = some (StateDict.mk (some "(unknown)")))
    ∧ (e.webhookOk = false →
        (runMain e st).saved = none ∧ (runMain e st).raised = true) := by
  have hv' : truthyS (resolveVersion e) = false := by rw [hv]; rfl
  refine ⟨runMain_unknown_posts e st hv' hf, ?_, ?_⟩
  · intro hok
    rw [runMain_unknown_saved e st hv' hf, hok, if_pos rfl]
  · intro hok
    constructor
    · rw [runMain_unknown_saved e st hv' hf, hok]; rfl
    · simp [runMain, hv', hf, hok]

theorem C1_amended_unknown_run_witness :
    (runMain (noSourceEnv false true) (StateDict.mk none)).posts.map wireTitle
      = ["🔔 Fortnite Update (unknown)"]
    ∧ (runMain (noSourceEnv false true) (StateDict.mk none)).saved
      = some (StateDict.mk (some "(unknown)")) :=
  ⟨(C1_amended_unknown_run (noSourceEnv false true) (StateDict.mk none) rfl rfl rfl).1,
   (C1_amended_unknown_run (noSourceEnv false true) (StateDict.mk none) rfl rfl rfl).2.1 rfl⟩

/-- C2 counterexample: the first version-less non-forced run persists the
sentinel, yet a second identical run POSTs again — the sentinel does not
suppress the repeat announcement. -/
theorem C2_counterexample :
    (runMain (noSourceEnv false true) (StateDict.mk none)).saved
        = some (StateDict.mk (some "(unknown)"))
    ∧ (runMain (noSourceEnv false true) (StateDict.mk (some "(unknown)"))).posts ≠ [] := by
  decide

/-- C2 (amended): after a non-forced no-version run persists the sentinel
`"(unknown)"`, a second non-forced run over the same version-less sources
notifies AGAIN: the unknown path runs before the dedup gate ever
compares `last_version`, so the persisted sentinel does not suppress the
repeat diagnostic. -/
theorem C2_amended_repeat_notifies (e : RunEnv) (st : StateDict)
    (hv : resolveVersion e = none) (hf : e.forced = false) (hok : e.webhookOk = true) :
    (runMain e st).saved = some (StateDict.mk (some "(unknown)"))
    ∧ ((runMain e ((runMain e st).saved.getD st)).posts).map wireTitle
        = ["🔔 Fortnite Update (unknown)"] := by
  have hv' : truthyS (resolveVersion e) = false := by rw [hv]; rfl
  have hsaved : (runMain e st).saved = some (StateDict.mk (some "(unknown)")) := by
    rw [runMain_unknown_saved e st hv' hf, hok, if_pos rfl]
  exact ⟨hsaved, runMain_unknown_posts e _ hv' hf⟩

theorem C2_amended_repeat_notifies_witness :
    (runMain (noSourceEnv false true) (StateDict.mk none)).saved
        = some (StateDict.mk (some "(unknown)"))
    ∧ ((runMain (noSourceEnv false true)
          ((runMain (noSourceEnv false true) (StateDict.mk none)).saved.getD
            (StateDict.mk none))).posts).map wireTitle
        = ["🔔 Fortnite Update (unknown)"] :=
  C2_amended_repeat_notifies (noSourceEnv false true) (StateDict.mk none) rfl rfl rfl

/-- C3: the dedup gate — when a (truthy) version is resolved, equals the
persisted `last_version`, and the run is not forced, the run is fully
suppressed (no POST, no state write, no exception); consequently a second
run over identical sources right after a successful first run is
suppressed. -/
theorem C3_dedup_idempotent (e : RunEnv) (st : StateDict) (v : String)
    (hv : resolveVersion e = some v) (hne : v ≠ "") (hf : e.forced = false) :
    (st.last_version = some v → runMain e st = RunOut.mk [] none false)
    ∧ (e.webhookOk = true →
        (runMain e ((runMain e st).saved.getD st)).posts = []) := by
  have htv : truthyS (resolveVersion e) = true := by
    rw [hv]; exact truthyS_some_of_ne hne
  have suppress : ∀ st' : StateDict, st'.last_version = some v →
      runMain e st' = RunOut.mk [] none false := by
    intro st' hlast
    simp [runMain, hf, hlast, hv, truthyS_some_of_ne hne]
  refine ⟨suppress st, ?_⟩
  intro hok
  by_cases hlast : st.last_version = some v
  · rw [suppress st hlast]
    simp [suppress st hlast]
  · have hdeliver : (runMain e st).saved = some (StateDict.mk (some v)) := by
      simp [runMain, hf, hok, hv, hlast, truthyS_some_of_ne hne]
    rw [hdeliver, Option.getD_some, suppress (StateDict.mk (some v)) rfl]

theorem C3_dedup_idempotent_witness :
    runMain (versionEnv "v37.20") (StateDict.mk (some "v37.20")) = RunOut.mk [] none false
    ∧ (runMain (versionEnv "v37.20")
        ((runMain (versionEnv "v37.20") (StateDict.mk none)).saved.getD
          (StateDict.mk none))).posts = [] :=
  ⟨(C3_dedup_idempotent (versionEnv "v37.20") (StateDict.mk (some "v37.20")) "v37.20"
      rfl (by decide) rfl).1 rfl,
   (C3_dedup_idempotent (versionEnv "v37.20") (StateDict.mk none) "v37.20"
      rfl (by decide) rfl).2 rfl⟩

/-- C4: a forced run never writes the state file, whatever the sources
resolved and whether or not the webhook POST succeeds. -/
theorem C4_forced_never_saves (e : RunEnv) (st : StateDict) (hf : e.forced = true) :
    (runMain e st).saved = none := by
  cases hok : e.webhookOk <;> simp [runMain, hf, hok]

theorem C4_forced_never_saves_witness :
    (runMain (noSourceEnv true true) (StateDict.mk none)).saved = none
    ∧ (runMain (noSourceEnv true false) (StateDict.mk none)).saved = none :=
  ⟨C4_forced_never_saves (noSourceEnv true true) (StateDict.mk none) rfl,
   C4_forced_never_saves (noSourceEnv true false) (StateDict.mk none) rfl⟩

/-- C5 counterexample: the forced no-version run does deliver, but its
title renders Python's `None` — `🔔 Fortnite Update None (forced)` — and
the word `unknown` appears nowhere in it, so the announcement does not
carry the `"unknown"` sentinel the claim requires. -/
theorem C5_counterexample :
    (runMain (noSourceEnv true true) (StateDict.mk none)).posts.map wireTitle
      = ["🔔 Fortnite Update None (forced)"]
    ∧ hasSub "unknown".data (lowerStr "🔔 Fortnite Update None (forced)").data = false := by
  decide

/-- C5 (amended): every forced run with no resolved version still delivers
exactly one announcement, but `build_embed` receives the raw `None`, so
the title is `🔔 Fortnite Update None (forced)` — the `"(unknown)"`
sentinel is used only on the non-forced unknown path. -/
theorem C5_amended_forced_none_title (e : RunEnv) (st : StateDict)
    (hf : e.forced = true) (hv : resolveVersion e = none) :
    (runMain e st).posts.map wireTitle = ["🔔 Fortnite Update None (forced)"] := by
  cases hok : e.webhookOk <;>
    simp [runMain, hf, hv, hok, wireTitle, build_embed, truthyS, pyStr]

theorem C5_amended_forced_none_title_witness :
    (runMain (noSourceEnv true true) (StateDict.mk none)).posts.map wireTitle
      = ["🔔 Fortnite Update None (forced)"] :=
  C5_amended_forced_none_title (noSourceEnv true true) (StateDict.mk none) rfl rfl

/-- C9: loading persisted state never raises — `load_state` is a total
function, and on each failure condition (file absent, file unreadable,
contents not valid JSON) it returns the default `{"last_version": None}`. -/
theorem C9_load_state_defaults :
    load_state .absent = StateDict.mk none
    ∧ load_state .unreadable = StateDict.mk none
    ∧ load_state .notJson = StateDict.mk none := by
  exact ⟨rfl, rfl, rfl⟩
